import Mathlib

/-!
Shallow embedding of the hybrid RAG retrieval core:
`rag_features.py` (`HybridRetriever`) and `neo4j_connect.py`
(`Neo4jConnection`, `GraphRAG`).  External collaborators (the vector
retriever, the Neo4j store, the LLM graph transformer, the HTTP stack)
are modelled as explicit environment parameters; Python exceptions on
those boundaries are modelled as explicit outcome constructors, so a
total Lean function models "does not raise".
-/

/-- ASCII model of Python `str.lower()` (the routing patterns and the
keyword extractor only ever compare ASCII text). -/
def pyLower (s : String) : String := String.mk (s.data.map Char.toLower)

/-- ASCII model of Python `str.upper()`. -/
def pyUpper (s : String) : String := String.mk (s.data.map Char.toUpper)

/-- Model of `str.replace(" ", "_")` (single-character pattern, so a
character-wise map is exact). -/
def replaceSpaces (s : String) : String :=
  String.mk (s.data.map fun c => if c = ' ' then '_' else c)

/-- Does `pat` occur at the head of `s`? -/
def matchHere : List Char → List Char → Bool
  | [], _ => true
  | _ :: _, [] => false
  | a :: as, b :: bs => a == b && matchHere as bs

/-- Does `pat` occur anywhere in `s`? -/
def matchAnywhere (pat : List Char) : List Char → Bool
  | [] => matchHere pat []
  | b :: bs => matchHere pat (b :: bs) || matchAnywhere pat bs

/-- Model of `re.search(pat, s)` for the routing patterns, all of which
are literal strings (the only escape, `c\'est quoi`, denotes a literal
apostrophe): substring search. -/
def reSearch (pat s : String) : Bool := matchAnywhere pat.data s.data

namespace HybridRetriever

/-- The retrieval route, `rag_features.py` lines 50-55: the strings
`'qdrant'` (vector store), `'neo4j'` (graph store), `'hybrid'`. -/
inductive Route where
  | qdrant
  | neo4j
  | hybrid
deriving DecidableEq, Repr

/-- `self.patterns['qdrant']`, `rag_features.py` lines 36-39. -/
def qdrantPatterns : List String :=
  ["what is", "define", "price", "prix", "cost", "tarif",
   "spec", "feature", "combien", "c'est quoi"]

/-- `self.patterns['neo4j']`, `rag_features.py` lines 40-43. -/
def neo4jPatterns : List String :=
  ["related", "history", "evolution", "connection", "link",
   "historique", "lien", "impact"]

/-- `self.patterns`, `rag_features.py` lines 35-44: an insertion-ordered
dict, `'qdrant'` registered before `'neo4j'`. -/
def patterns : List (Route × List String) :=
  [(Route.qdrant, qdrantPatterns), (Route.neo4j, neo4jPatterns)]

/-- `HybridRetriever.route_query`, `rag_features.py` lines 46-55:
lower-case the query, scan the pattern sets in registration order and
return the first method one of whose patterns matches; `'hybrid'` when
none does. -/
def route_query (query : String) : Route :=
  let query_lower := pyLower query
  match patterns.find? (fun mp => mp.2.any fun p => reSearch p query_lower) with
  | some mp => mp.1
  | none => Route.hybrid

/-- A retrieved context chunk (a langchain `Document`): page content
plus a metadata mapping. -/
structure Chunk where
  page_content : String
  metadata : List (String × String)
deriving DecidableEq, Repr

/-- Environment of `HybridRetriever.retrieve`: the constructor-set flags
and the external connectors it consults. -/
structure RetrieverEnv where
  /-- `self.use_neo4j`. -/
  use_neo4j : Bool
  /-- `self.graph_rag is not None`. -/
  hasGraphRag : Bool
  /-- `self.graph_rag.is_available()`. -/
  graphAvailable : Bool
  /-- `self.retriever.invoke(query)` (the Qdrant vector retriever). -/
  vectorResults : String → List Chunk
  /-- `self.graph_rag.query_graph(query)`. -/
  graphContext : String → String

/-- The synthesized graph chunk, `rag_features.py` line 72. -/
def graphChunk (graph_context : String) : Chunk :=
  ⟨"Generic Graph Context: " ++ graph_context, [("source", "neo4j")]⟩

/-- `HybridRetriever.retrieve`, `rag_features.py` lines 57-74: classify
the route, extend with vector results for routes `qdrant`/`hybrid`, then
append the single graph chunk for routes `neo4j`/`hybrid` when graph
mode is on, the graph connector exists and reports available, and the
graph context is non-empty.  Returns the pair `(chunks, route)`. -/
def retrieve (env : RetrieverEnv) (query : String) : List Chunk × Route :=
  let route := route_query query
  let chunks : List Chunk := []
  let chunks :=
    if route = Route.qdrant ∨ route = Route.hybrid then
      chunks ++ env.vectorResults query
    else chunks
  let chunks :=
    if (route = Route.neo4j ∨ route = Route.hybrid) ∧
        env.use_neo4j = true ∧ env.hasGraphRag = true ∧ env.graphAvailable = true then
      let graph_context := env.graphContext query
      if graph_context ≠ "" then chunks ++ [graphChunk graph_context] else chunks
    else chunks
  (chunks, route)

end HybridRetriever

/-- A result row of a Cypher query (`record.data()` / the zipped HTTP
row), modelled as an association list of column name to cell text. -/
abbrev QueryRow := List (String × String)

namespace Neo4jConnection

/-- Outcome of the Bolt connection attempt in `Neo4jConnection._connect`
(`GraphDatabase.driver` + `verify_connectivity`): success, or any
exception. -/
inductive BoltConnect where
  | ok
  | exn
deriving DecidableEq, Repr

/-- Outcome of the HTTP fallback probe in `Neo4jConnection._connect`:
a response with some status code, or any exception (timeout, DNS, ...). -/
inductive HttpConnect where
  | resp (status : Nat)
  | exn
deriving DecidableEq, Repr

/-- The connection-relevant fields of `Neo4jConnection` after
`__init__`/`_connect` (`neo4j_connect.py` lines 15-19). -/
structure State where
  /-- `self.driver is not None`. -/
  driver : Bool
  /-- `self.use_http_api`. -/
  use_http_api : Bool
  /-- `self.http_base_url`. -/
  http_base_url : Option String
deriving DecidableEq, Repr

/-- `Neo4jConnection._connect`, `neo4j_connect.py` lines 21-62: try the
Bolt driver first; on any exception reset the driver and probe the HTTP
API with a trivial query; status 200 or 202 enables the HTTP transport,
any other status or exception leaves both transports off. -/
def connect (uri : String) (bolt : BoltConnect) (http : HttpConnect) : State :=
  match bolt with
  | .ok => { driver := true, use_http_api := false, http_base_url := none }
  | .exn =>
    let http_url := (uri.replace "neo4j+s://" "https://").replace "neo4j://" "http://"
    match http with
    | .resp status =>
      if status = 200 ∨ status = 202 then
        { driver := false, use_http_api := true, http_base_url := some http_url }
      else
        { driver := false, use_http_api := false, http_base_url := none }
    | .exn => { driver := false, use_http_api := false, http_base_url := none }

/-- `Neo4jConnection.is_connected`, `neo4j_connect.py` lines 69-70. -/
def is_connected (c : State) : Bool := c.driver || c.use_http_api

/-- Outcome of `session.run` over the Bolt driver: a list of records, or
any exception. -/
inductive BoltQuery where
  | records (rows : List QueryRow)
  | exn
deriving DecidableEq, Repr

/-- The parsed JSON body of an HTTP query response, as inspected by
`execute_query`: whether `"data"` is present, whether `"values"` is
present under it, and the `fields`/`values` arrays (defaulted to `[]`
by `.get`). -/
structure HttpJsonBody where
  hasData : Bool
  hasValues : Bool
  fields : List String
  values : List (List String)
deriving DecidableEq, Repr

/-- Outcome of `requests.post` in `execute_query`: a response with a
status code and a JSON body (`none` models `resp.json()` raising), or
any exception. -/
inductive HttpQuery where
  | resp (status : Nat) (body : Option HttpJsonBody)
  | exn
deriving DecidableEq, Repr

/-- `Neo4jConnection.execute_query`, `neo4j_connect.py` lines 72-118:
Bolt transport when the driver is set (exceptions swallowed to `[]`);
else the HTTP transport when enabled (non-2xx status, JSON errors and
exceptions all swallowed to `[]`, rows zipped with the column names);
else `[]`. -/
def execute_query (c : State) (bolt : BoltQuery) (http : HttpQuery)
    (query : String) (parameters : List (String × String)) : List QueryRow :=
  if c.driver then
    match bolt with
    | .records rows => rows
    | .exn => []
  else if c.use_http_api && c.http_base_url.isSome then
    match http with
    | .resp status body =>
      if status = 200 ∨ status = 202 then
        match body with
        | some data =>
          if data.hasData && data.hasValues then
            data.values.map fun row => data.fields.zip row
          else []
        | none => []
      else []
    | .exn => []
  else []

end Neo4jConnection

/-- Connection states of the spec's §4.3 state machine, used to phrase
the claims about `_connect`/`is_connected`. -/
inductive ConnState where
  | Primary
  | HttpFallback
  | Unavailable
deriving DecidableEq, Repr

/-- The spec-level state of a connection: `Primary` when the Bolt driver
is set, `HttpFallback` when only the HTTP transport is enabled,
`Unavailable` otherwise. -/
def connState (c : Neo4jConnection.State) : ConnState :=
  if c.driver then ConnState.Primary
  else if c.use_http_api then ConnState.HttpFallback
  else ConnState.Unavailable

namespace GraphRAG

/-- An input document, opaque to the graph builder (only fed to the LLM
transformer). -/
structure Document where
  text : String
deriving DecidableEq, Repr

/-- A node of an LLM-produced graph document: `node.id` is the entity
name, `node.type` its label. -/
structure GNode where
  id : String
  type : String
deriving DecidableEq, Repr

/-- A relationship of an LLM-produced graph document:
`rel.source.id`, `rel.target.id`, `rel.type`. -/
structure GRel where
  source : String
  target : String
  type : String
deriving DecidableEq, Repr

/-- An LLM-produced graph document (`LLMGraphTransformer` output):
nodes, relationships and the source document's `metadata.get("source")`. -/
structure GraphDoc where
  nodes : List GNode
  relationships : List GRel
  sourceMeta : Option String
deriving DecidableEq, Repr

/-- Ghost log of the store calls `build_graph` issues, used to state
what `build_graph` asked the store to create.  `createNode` records the
label, the entity name, the source property and the store's reply;
`createRel` records the (lower-cased) endpoint names, the resolved ids
and the normalized relationship type. -/
inductive StoreOp where
  | createNode (label name source : String) (reply : Option Nat)
  | createRel (from_name to_name : String) (from_id to_id : Nat) (rel_type : String)
deriving DecidableEq, Repr

/-- Environment of `GraphRAG.build_graph`: the importability of
`langchain_experimental`, the opaque LLM transformer, and the store's
replies to the n-th `create_node` / `create_relationship` call. -/
structure BuildEnv where
  experimentalInstalled : Bool
  transform : List Document → List GraphDoc
  nodeReply : Nat → Option Nat
  relReply : Nat → List QueryRow

/-- The loop state of `GraphRAG.build_graph` (`neo4j_connect.py` lines
190-192), instrumented with call counters and the ghost op log. -/
structure BuildState where
  total_entities : Nat
  total_relations : Nat
  entity_id_map : List (String × Nat)
  nodeCalls : Nat
  relCalls : Nat
  ops : List StoreOp
deriving Repr

/-- The initial loop state: zero counters, empty map, empty log. -/
def initState : BuildState :=
  { total_entities := 0, total_relations := 0, entity_id_map := [],
    nodeCalls := 0, relCalls := 0, ops := [] }

/-- The node-insertion step of `build_graph` (`neo4j_connect.py` lines
198-210): if the lower-cased entity name is not yet in
`entity_id_map`, call `create_node`; on a non-null id, record the id in
the map and count the entity. -/
def insertNode (env : BuildEnv) (srcMeta : String) (st : BuildState) (node : GNode) :
    BuildState :=
  let entity_name := node.id
  let key := pyLower entity_name
  if (st.entity_id_map.lookup key).isSome then st
  else
    match env.nodeReply st.nodeCalls with
    | some node_id =>
      { st with
        nodeCalls := st.nodeCalls + 1,
        ops := st.ops ++ [StoreOp.createNode node.type entity_name srcMeta (some node_id)],
        entity_id_map := (key, node_id) :: st.entity_id_map,
        total_entities := st.total_entities + 1 }
    | none =>
      { st with
        nodeCalls := st.nodeCalls + 1,
        ops := st.ops ++ [StoreOp.createNode node.type entity_name srcMeta none] }

/-- The relationship-insertion step of `build_graph` (`neo4j_connect.py`
lines 213-225): normalize the type, and when both lower-cased endpoint
names resolve in `entity_id_map`, call `create_relationship` (its reply
is discarded) and count the relation. -/
def insertRel (env : BuildEnv) (st : BuildState) (rel : GRel) : BuildState :=
  let from_name := pyLower rel.source
  let to_name := pyLower rel.target
  let rel_type := pyUpper (replaceSpaces rel.type)
  match st.entity_id_map.lookup from_name, st.entity_id_map.lookup to_name with
  | some from_id, some to_id =>
    let _reply := env.relReply st.relCalls
    { st with
      relCalls := st.relCalls + 1,
      ops := st.ops ++ [StoreOp.createRel from_name to_name from_id to_id rel_type],
      total_relations := st.total_relations + 1 }
  | _, _ => st

/-- One iteration of the outer loop of `build_graph` over a graph
document: insert its nodes, then its relationships. -/
def processDoc (env : BuildEnv) (st : BuildState) (gdoc : GraphDoc) : BuildState :=
  let srcMeta := gdoc.sourceMeta.getD "unknown"
  let st := gdoc.nodes.foldl (insertNode env srcMeta) st
  gdoc.relationships.foldl (insertRel env) st

/-- The main loop of `build_graph`: transform the first 50 documents and
fold every graph document through `processDoc`. -/
def build_graph_run (env : BuildEnv) (documents : List Document) : BuildState :=
  (env.transform (documents.take 50)).foldl (processDoc env) initState

/-- The pair returned by `build_graph`
(`{"entities": ..., "relations": ...}`). -/
structure BuildResult where
  entities : Nat
  relations : Nat
deriving DecidableEq, Repr

/-- The `GraphRAG` object: its connection and whether `self.llm` is
set. -/
structure RAGState where
  neo4j : Neo4jConnection.State
  hasLLM : Bool
deriving DecidableEq, Repr

/-- `GraphRAG.is_available`, `neo4j_connect.py` lines 168-169. -/
def is_available (g : RAGState) : Bool := Neo4jConnection.is_connected g.neo4j

/-- `GraphRAG.build_graph`, `neo4j_connect.py` lines 172-227: zero
counts (and no store calls) unless the store is connected, an LLM is
set and `langchain_experimental` imports; otherwise run the build loop.
Returned alongside the ghost op log. -/
def build_graph (g : RAGState) (env : BuildEnv) (documents : List Document) :
    BuildResult × List StoreOp :=
  if !is_available g || !g.hasLLM then (⟨0, 0⟩, [])
  else if !env.experimentalInstalled then (⟨0, 0⟩, [])
  else
    let st := build_graph_run env documents
    (⟨st.total_entities, st.total_relations⟩, st.ops)

/-- The stop-word set of `GraphRAG._extract_keywords`
(`neo4j_connect.py` line 266). -/
def stop_words : List String :=
  ["the", "a", "an", "is", "are", "was", "who", "what", "where", "when",
   "why", "how", "which", "that", "this", "in", "on", "at", "to", "for",
   "of", "and", "or", "with", "from", "by"]

/-- A word character of the regex `\w` over the lower-cased ASCII text:
alphanumeric or underscore. -/
def isWordChar (c : Char) : Bool := c.isAlphanum || c = '_'

/-- Maximal runs of word characters: `re.findall(r'\b\w+\b', s)`.
`acc` holds the (reversed) characters of the run being read. -/
def findWordsAux : List Char → List Char → List String
  | [], acc => if acc.isEmpty then [] else [String.mk acc.reverse]
  | c :: rest, acc =>
    if isWordChar c then findWordsAux rest (c :: acc)
    else if acc.isEmpty then findWordsAux rest []
    else String.mk acc.reverse :: findWordsAux rest []

/-- `re.findall(r'\b\w+\b', text)`. -/
def findWords (s : String) : List String := findWordsAux s.data []

/-- `GraphRAG._extract_keywords`, `neo4j_connect.py` lines 265-272:
tokenize the lower-cased text, keep non-stop-words longer than two
characters, deduplicate preserving first appearance, keep the first
ten. -/
def _extract_keywords (text : String) : List String :=
  let words := findWords (pyLower text)
  let keywords := words.filter fun w => !stop_words.contains w && decide (2 < w.length)
  let unique_keywords :=
    keywords.foldl (fun acc kw => if kw ∈ acc then acc else acc ++ [kw]) []
  unique_keywords.take 10

/-- Does `op` create a node whose lower-cased entity name is `key`? -/
def nodeOpFor (key : String) (op : StoreOp) : Bool :=
  match op with
  | StoreOp.createNode _ name _ _ => pyLower name == key
  | _ => false

/-- How many node-creation calls for the lower-cased entity name `key`
does the op log contain? -/
def countNodeOps (key : String) (ops : List StoreOp) : Nat :=
  (ops.filter (nodeOpFor key)).length

/-- A relationship-creation call is resolved by the map `m` when both of
its recorded endpoint ids are exactly what `m` assigns to its recorded
endpoint names. -/
def relOpResolved (m : List (String × Nat)) : StoreOp → Prop
  | StoreOp.createRel from_name to_name from_id to_id _ =>
    m.lookup from_name = some from_id ∧ m.lookup to_name = some to_id
  | StoreOp.createNode _ _ _ _ => True

/-- The loop invariant of `build_graph`: the op log holds one
node-creation call per mapped entity name and none for unmapped names,
and every relationship-creation call is resolved by the entity-id
map. -/
def BuildInv (st : BuildState) : Prop :=
  (∀ key, countNodeOps key st.ops =
    (if (st.entity_id_map.lookup key).isSome then 1 else 0)) ∧
  (∀ op ∈ st.ops, relOpResolved st.entity_id_map op)

/-- Is `op` a relationship-creation call? -/
def isCreateRel (op : StoreOp) : Bool :=
  match op with
  | StoreOp.createRel _ _ _ _ _ => true
  | _ => false

/-- The bookkeeping invariant of the relation counter: it equals the
number of relationship-creation calls issued. -/
def RelCountInv (st : BuildState) : Prop :=
  st.total_relations = (st.ops.filter isCreateRel).length ∧
  st.relCalls = st.total_relations

/-- How many of the relationship-creation calls issued so far received a
non-empty reply from the store (i.e. were observably created). -/
def storeCreatedRels (env : BuildEnv) (st : BuildState) : Nat :=
  ((List.range st.relCalls).filter fun n => !(env.relReply n).isEmpty).length

end GraphRAG

section WitnessData

open HybridRetriever GraphRAG

/-- Concrete retriever environment: graph mode off, one vector hit. -/
def envC1 : RetrieverEnv :=
  { use_neo4j := false, hasGraphRag := false, graphAvailable := false,
    vectorResults := fun _ => [⟨"X200 spec sheet", [("source", "docs")]⟩],
    graphContext := fun _ => "" }

/-- Concrete retriever environment: graph mode on and available, two
vector hits and a non-empty graph context. -/
def envC3 : RetrieverEnv :=
  { use_neo4j := true, hasGraphRag := true, graphAvailable := true,
    vectorResults := fun _ =>
      [⟨"hit one", [("source", "docs")]⟩, ⟨"hit two", [("source", "docs")]⟩],
    graphContext := fun _ => "solar context" }

/-- Concrete retriever environment: graph connector unavailable. -/
def envC4 : RetrieverEnv :=
  { use_neo4j := true, hasGraphRag := true, graphAvailable := false,
    vectorResults := fun _ => [⟨"hit", []⟩],
    graphContext := fun _ => "ctx" }

/-- First graph document of the dedup scenario: mentions
"Solar Panel X". -/
def docA : GraphDoc :=
  { nodes := [⟨"Solar Panel X", "Product"⟩, ⟨"GreenPower", "Company"⟩],
    relationships := [⟨"GreenPower", "Solar Panel X", "makes"⟩],
    sourceMeta := some "a.pdf" }

/-- Second graph document of the dedup scenario: re-mentions
"solar panel x" in different case. -/
def docB : GraphDoc :=
  { nodes := [⟨"solar panel x", "Product"⟩, ⟨"Y300", "Product"⟩],
    relationships := [⟨"Solar Panel X", "Y300", "precedes"⟩],
    sourceMeta := some "b.pdf" }

/-- Concrete build environment whose transformer yields the two
"Solar Panel X" documents and whose store always replies with an id. -/
def envC7 : BuildEnv :=
  { experimentalInstalled := true,
    transform := fun _ => [docA, docB],
    nodeReply := fun n => some n,
    relReply := fun _ => [] }

/-- A `GraphRAG` whose connection failed on both transports. -/
def ragDown : RAGState :=
  { neo4j := Neo4jConnection.connect "neo4j+s://example.com" .exn .exn,
    hasLLM := true }

/-- Concrete build environment for the no-op scenario. -/
def envC8 : BuildEnv :=
  { experimentalInstalled := true,
    transform := fun _ => [docA],
    nodeReply := fun _ => none,
    relReply := fun _ => [] }

end WitnessData

section RoutingTheorems

open HybridRetriever

/-- C2: `route_query` lower-cases the query and tests the vector
(`qdrant`) pattern set before the graph (`neo4j`) pattern set with
first-match-wins: a query matching at least one vector pattern is routed
`qdrant` even if it also matches a graph pattern; a query matching a
graph pattern and no vector pattern is routed `neo4j`; a query matching
no pattern is routed `hybrid`. -/
theorem C2_route_query_first_match (q : String) :
    (qdrantPatterns.any (fun p => reSearch p (pyLower q)) = true →
      route_query q = Route.qdrant) ∧
    (qdrantPatterns.any (fun p => reSearch p (pyLower q)) = false →
      neo4jPatterns.any (fun p => reSearch p (pyLower q)) = true →
      route_query q = Route.neo4j) ∧
    (qdrantPatterns.any (fun p => reSearch p (pyLower q)) = false →
      neo4jPatterns.any (fun p => reSearch p (pyLower q)) = false →
      route_query q = Route.hybrid) := by
  refine ⟨fun h1 => ?_, fun h1 h2 => ?_, fun h1 h2 => ?_⟩
  · simp only [route_query, patterns, List.find?, h1]
  · simp only [route_query, patterns, List.find?, h1, h2]
  · simp only [route_query, patterns, List.find?, h1, h2]

/-- Witness for C2 at the spec's three scenario queries. -/
theorem C2_route_query_first_match_witness :
    HybridRetriever.route_query "What is the price of the X200 panel?" =
      HybridRetriever.Route.qdrant ∧
    HybridRetriever.route_query "How is the X200 related to the Y300 model historically?" =
      HybridRetriever.Route.neo4j ∧
    HybridRetriever.route_query "Tell me about solar efficiency" =
      HybridRetriever.Route.hybrid :=
  ⟨(C2_route_query_first_match _).1 (by decide),
   (C2_route_query_first_match _).2.1 (by decide) (by decide),
   (C2_route_query_first_match _).2.2 (by decide) (by decide)⟩

/-- C1 (counter-evidence): `HybridRetriever.retrieve` evaluates to the
bare pair `(chunks, route)` — its result carries no timings mapping at
all, although the caller (`interface.py` line 156) unpacks
`chunks, route, timings` and the spec's contract promises the triple. -/
theorem C1_retrieve_returns_pair_without_timings :
    HybridRetriever.retrieve envC1 "What is the price of the X200 panel?" =
      ([⟨"X200 spec sheet", [("source", "docs")]⟩], HybridRetriever.Route.qdrant) := by
  decide

end RoutingTheorems

section RetrieveTheorems

open HybridRetriever

/-- C3: for a query routed `hybrid`, `retrieve` returns the vector
results first, in the connector's own order, followed only by the
synthesized graph chunk (tagged `source = neo4j`) when one exists. -/
theorem C3_hybrid_vector_chunks_first (env : RetrieverEnv) (q : String)
    (h : route_query q = Route.hybrid) :
    ∃ gtail : List Chunk,
      (retrieve env q).1 = env.vectorResults q ++ gtail ∧
      ∀ c ∈ gtail, c.metadata = [("source", "neo4j")] := by
  simp only [retrieve, h, reduceCtorEq, false_or, or_true, if_true, true_and,
    List.nil_append]
  split_ifs with h1 h2
  · exact ⟨[graphChunk (env.graphContext q)], rfl, by simp [graphChunk]⟩
  · exact ⟨[], by simp, by simp⟩
  · exact ⟨[], by simp, by simp⟩

/-- Witness for C3 at a concrete hybrid-routed query and environment. -/
theorem C3_hybrid_vector_chunks_first_witness :
    ∃ gtail : List HybridRetriever.Chunk,
      (HybridRetriever.retrieve envC3 "Tell me about solar efficiency").1 =
        envC3.vectorResults "Tell me about solar efficiency" ++ gtail ∧
      ∀ c ∈ gtail, c.metadata = [("source", "neo4j")] :=
  C3_hybrid_vector_chunks_first envC3 _ (by decide)

/-- C4: for a query routed `neo4j` (graph), when graph mode is disabled,
the graph connector is absent, or it reports unavailable, `retrieve`
returns the empty chunk sequence (and, being a total function of the
modelled outcomes, raises nothing). -/
theorem C4_graph_route_unavailable_empty (env : RetrieverEnv) (q : String)
    (h : route_query q = Route.neo4j)
    (hu : env.use_neo4j = false ∨ env.hasGraphRag = false ∨ env.graphAvailable = false) :
    (retrieve env q).1 = [] := by
  unfold retrieve
  rw [h]
  rcases hu with hu | hu | hu <;> simp [hu]

/-- Witness for C4 at a concrete graph-routed query with the graph
connector reporting unavailable. -/
theorem C4_graph_route_unavailable_empty_witness :
    (HybridRetriever.retrieve envC4 "How are the X200 and Y300 related?").1 = [] :=
  C4_graph_route_unavailable_empty envC4 _ (by decide) (Or.inr (Or.inr rfl))

end RetrieveTheorems

section ConnectionTheorems

open Neo4jConnection

/-- C5: `execute_query` never raises (it is a total function of the
modelled per-call outcomes) and returns the empty sequence on every
transport failure: a Bolt exception, an HTTP exception, a non-success
HTTP status, and also when no transport is active. -/
theorem C5_execute_query_swallows_failures (c : State) (bolt : BoltQuery)
    (http : HttpQuery) (q : String) (params : List (String × String)) :
    (c.driver = true → bolt = BoltQuery.exn →
      execute_query c bolt http q params = []) ∧
    (c.driver = false → http = HttpQuery.exn →
      execute_query c bolt http q params = []) ∧
    (∀ status body, c.driver = false → http = HttpQuery.resp status body →
      ¬(status = 200 ∨ status = 202) →
      execute_query c bolt http q params = []) ∧
    (c.driver = false → (c.use_http_api = false ∨ c.http_base_url = none) →
      execute_query c bolt http q params = []) := by
  refine ⟨fun hd hb => ?_, fun hd hh => ?_, fun status body hd hh hs => ?_,
    fun hd hu => ?_⟩
  · simp [execute_query, hd, hb]
  · simp [execute_query, hd, hh]
  · simp [execute_query, hd, hh, hs]
  · rcases hu with hu | hu <;>
      simp [execute_query, hd, hu]

/-- Witness for C5: each failure mode at a concrete connection state and
per-call outcome. -/
theorem C5_execute_query_swallows_failures_witness :
    Neo4jConnection.execute_query ⟨true, false, none⟩ .exn .exn "RETURN 1" [] = [] ∧
    Neo4jConnection.execute_query ⟨false, true, some "https://h"⟩ (.records [])
      .exn "RETURN 1" [] = [] ∧
    Neo4jConnection.execute_query ⟨false, true, some "https://h"⟩ (.records [])
      (.resp 500 none) "RETURN 1" [] = [] ∧
    Neo4jConnection.execute_query ⟨false, false, none⟩
      (.records [[("test", "1")]]) (.resp 200 (some ⟨true, true, ["test"], [["1"]]⟩))
      "RETURN 1" [] = [] :=
  ⟨(C5_execute_query_swallows_failures _ _ _ _ _).1 rfl rfl,
   (C5_execute_query_swallows_failures _ _ _ _ _).2.1 rfl rfl,
   (C5_execute_query_swallows_failures _ _ _ _ _).2.2.1 500 none rfl rfl (by decide),
   (C5_execute_query_swallows_failures _ _ _ _ _).2.2.2 rfl (Or.inl rfl)⟩

/-- C6: `_connect` follows the state machine — Bolt success lands in
`Primary`; on Bolt failure the HTTP probe's status decides: 200/202
lands in `HttpFallback`, any other status or an exception lands in
`Unavailable`; and `is_connected` is true exactly on `Primary` and
`HttpFallback`. -/
theorem C6_connect_state_machine (uri : String) (bolt : BoltConnect)
    (http : HttpConnect) :
    (bolt = BoltConnect.ok → connState (connect uri bolt http) = ConnState.Primary) ∧
    (∀ status, bolt = BoltConnect.exn → http = HttpConnect.resp status →
      ((status = 200 ∨ status = 202) →
        connState (connect uri bolt http) = ConnState.HttpFallback) ∧
      (¬(status = 200 ∨ status = 202) →
        connState (connect uri bolt http) = ConnState.Unavailable)) ∧
    (bolt = BoltConnect.exn → http = HttpConnect.exn →
      connState (connect uri bolt http) = ConnState.Unavailable) ∧
    (is_connected (connect uri bolt http) = true ↔
      (connState (connect uri bolt http) = ConnState.Primary ∨
        connState (connect uri bolt http) = ConnState.HttpFallback)) := by
  refine ⟨fun hb => ?_, fun status hb hh => ?_, fun hb hh => ?_, ?_⟩
  · simp [connect, connState, hb]
  · subst hb; subst hh
    refine ⟨fun hs => ?_, fun hs => ?_⟩
    · simp [connect, connState, hs]
    · simp [connect, connState, hs]
  · simp [connect, connState, hb, hh]
  · cases bolt with
    | ok => simp [connect, connState, is_connected]
    | exn =>
      cases http with
      | resp status =>
        by_cases hs : status = 200 ∨ status = 202 <;>
          simp [connect, connState, is_connected, hs]
      | exn => simp [connect, connState, is_connected]

/-- Witness for C6: the four transitions at concrete outcomes. -/
theorem C6_connect_state_machine_witness :
    connState (Neo4jConnection.connect "neo4j+s://example.com" .ok .exn) =
      ConnState.Primary ∧
    connState (Neo4jConnection.connect "neo4j+s://example.com" .exn (.resp 202)) =
      ConnState.HttpFallback ∧
    connState (Neo4jConnection.connect "neo4j+s://example.com" .exn (.resp 503)) =
      ConnState.Unavailable ∧
    connState (Neo4jConnection.connect "neo4j+s://example.com" .exn .exn) =
      ConnState.Unavailable :=
  ⟨(C6_connect_state_machine "neo4j+s://example.com" .ok .exn).1 rfl,
   ((C6_connect_state_machine "neo4j+s://example.com" .exn (.resp 202)).2.1
     202 rfl rfl).1 (Or.inr rfl),
   ((C6_connect_state_machine "neo4j+s://example.com" .exn (.resp 503)).2.1
     503 rfl rfl).2 (by decide),
   (C6_connect_state_machine "neo4j+s://example.com" .exn .exn).2.2.1 rfl rfl⟩

end ConnectionTheorems

section BuilderSimpleTheorems

open GraphRAG

/-- C8: when the graph store is not connected or no LLM is set,
`build_graph` is a no-op: it returns zero entity and relation counts,
issues no store call, and (being total) raises nothing. -/
theorem C8_build_graph_noop (g : RAGState) (env : BuildEnv)
    (docs : List Document)
    (h : is_available g = false ∨ g.hasLLM = false) :
    build_graph g env docs = (⟨0, 0⟩, []) := by
  rcases h with h | h <;> simp [build_graph, h]

/-- Witness for C8: a connection that failed on both transports. -/
theorem C8_build_graph_noop_witness :
    GraphRAG.build_graph ragDown envC8 [⟨"doc one"⟩, ⟨"doc two"⟩] = (⟨0, 0⟩, []) :=
  C8_build_graph_noop ragDown envC8 [⟨"doc one"⟩, ⟨"doc two"⟩] (Or.inl rfl)

/-- Members of the deduplication fold come from the accumulator or the
input list. -/
lemma mem_dedupe_foldl {l acc : List String} {x : String}
    (h : x ∈ l.foldl (fun a kw => if kw ∈ a then a else a ++ [kw]) acc) :
    x ∈ acc ∨ x ∈ l := by
  induction l generalizing acc with
  | nil => exact Or.inl h
  | cons y ys ih =>
    rw [List.foldl_cons] at h
    rcases ih h with hy | hy
    · by_cases hmem : y ∈ acc
      · rw [if_pos hmem] at hy
        exact Or.inl hy
      · rw [if_neg hmem] at hy
        rcases List.mem_append.mp hy with h' | h'
        · exact Or.inl h'
        · simp only [List.mem_singleton] at h'
          subst h'
          exact Or.inr (List.mem_cons_self _ _)
    · exact Or.inr (List.mem_cons_of_mem _ hy)

/-- C9: every keyword produced by `_extract_keywords` has strictly more
than two characters — tokens of length one or two never survive the
filter, stop words or not. -/
theorem C9_keywords_longer_than_two (text : String) (kw : String)
    (h : kw ∈ GraphRAG._extract_keywords text) : 2 < kw.length := by
  unfold GraphRAG._extract_keywords at h
  have h1 := List.take_subset _ _ h
  rcases mem_dedupe_foldl h1 with h2 | h2
  · exact absurd h2 (List.not_mem_nil _)
  · have hp := (List.mem_filter.mp h2).2
    rw [Bool.and_eq_true] at hp
    exact of_decide_eq_true hp.2

/-- Witness for C9: "solar" is extracted from a text that also holds the
short non-stop-word tokens "ab" and "x1". -/
theorem C9_keywords_longer_than_two_witness :
    "solar" ∈ GraphRAG._extract_keywords "ab solar x1 panels" ∧
      2 < "solar".length :=
  ⟨by decide, C9_keywords_longer_than_two "ab solar x1 panels" "solar" (by decide)⟩

end BuilderSimpleTheorems

section BuilderInvariantTheorems

open GraphRAG

lemma lookup_cons_self {m : List (String × Nat)} {k : String} {v : Nat} :
    ((k, v) :: m).lookup k = some v := by
  simp [List.lookup]

lemma lookup_cons_of_ne {m : List (String × Nat)} {k k' : String} {v : Nat}
    (h : ¬k' = k) : ((k, v) :: m).lookup k' = m.lookup k' := by
  have hb : (k' == k) = false := beq_false_of_ne h
  simp [List.lookup, hb]

/-- Extending the map with an unmapped key preserves every existing
binding. -/
lemma lookup_extend {m : List (String × Nat)} {key x : String} {nid v : Nat}
    (hnone : m.lookup key = none) (hx : m.lookup x = some v) :
    ((key, nid) :: m).lookup x = some v := by
  by_cases hxk : x = key
  · subst hxk
    rw [hx] at hnone
    cases hnone
  · rw [lookup_cons_of_ne hxk, hx]

lemma countNodeOps_append (key : String) (l1 l2 : List StoreOp) :
    countNodeOps key (l1 ++ l2) = countNodeOps key l1 + countNodeOps key l2 := by
  simp [countNodeOps, List.filter_append]

lemma countNodeOps_createNode_self (key label name src : String) (r : Option Nat)
    (h : pyLower name = key) :
    countNodeOps key [StoreOp.createNode label name src r] = 1 := by
  simp [countNodeOps, List.filter, nodeOpFor, h]

lemma countNodeOps_createNode_ne (key label name src : String) (r : Option Nat)
    (h : ¬pyLower name = key) :
    countNodeOps key [StoreOp.createNode label name src r] = 0 := by
  have hb : (pyLower name == key) = false := beq_false_of_ne h
  simp [countNodeOps, List.filter, nodeOpFor, hb]

lemma countNodeOps_createRel (key fn tn : String) (fid tid : Nat) (rt : String) :
    countNodeOps key [StoreOp.createRel fn tn fid tid rt] = 0 := by
  simp [countNodeOps, List.filter, nodeOpFor]

lemma relOpResolved_extend {m : List (String × Nat)} {key : String} {nid : Nat}
    (hnone : m.lookup key = none) {op : StoreOp}
    (h : relOpResolved m op) : relOpResolved ((key, nid) :: m) op := by
  cases op with
  | createNode label name src r => trivial
  | createRel fn tn fid tid rt =>
    exact ⟨lookup_extend hnone h.1, lookup_extend hnone h.2⟩

lemma insertNode_BuildInv (env : BuildEnv) (srcMeta : String) (node : GNode)
    (st : BuildState) (hor : ∀ n, (env.nodeReply n).isSome = true)
    (h : BuildInv st) : BuildInv (insertNode env srcMeta st node) := by
  obtain ⟨h1, h2⟩ := h
  unfold insertNode
  dsimp only
  by_cases hk : (st.entity_id_map.lookup (pyLower node.id)).isSome
  · rw [if_pos hk]
    exact ⟨h1, h2⟩
  · rw [if_neg hk]
    have hknone : st.entity_id_map.lookup (pyLower node.id) = none :=
      Option.not_isSome_iff_eq_none.mp hk
    obtain ⟨nid, hnid⟩ := Option.isSome_iff_exists.mp (hor st.nodeCalls)
    rw [hnid]
    dsimp only
    constructor
    · intro key
      rw [countNodeOps_append]
      by_cases hkey : pyLower node.id = key
      · subst hkey
        rw [countNodeOps_createNode_self _ _ _ _ _ rfl, h1 (pyLower node.id),
          hknone, lookup_cons_self]
        rfl
      · rw [countNodeOps_createNode_ne _ _ _ _ _ hkey,
          lookup_cons_of_ne (fun hh => hkey hh.symm), h1 key]
        omega
    · intro op hop
      rcases List.mem_append.mp hop with hop | hop
      · exact relOpResolved_extend hknone (h2 op hop)
      · simp only [List.mem_singleton] at hop
        subst hop
        trivial

lemma insertRel_BuildInv (env : BuildEnv) (rel : GRel) (st : BuildState)
    (h : BuildInv st) : BuildInv (insertRel env st rel) := by
  obtain ⟨h1, h2⟩ := h
  unfold insertRel
  dsimp only
  cases hf : st.entity_id_map.lookup (pyLower rel.source) with
  | none => exact ⟨h1, h2⟩
  | some fid =>
    cases ht : st.entity_id_map.lookup (pyLower rel.target) with
    | none => exact ⟨h1, h2⟩
    | some tid =>
      dsimp only
      constructor
      · intro key
        dsimp only
        rw [countNodeOps_append, countNodeOps_createRel]
        rw [h1 key]
        omega
      · intro op hop
        rcases List.mem_append.mp hop with hop | hop
        · exact h2 op hop
        · simp only [List.mem_singleton] at hop
          subst hop
          exact ⟨hf, ht⟩

lemma foldl_insertNode_BuildInv (env : BuildEnv) (srcMeta : String)
    (nodes : List GNode) (st : BuildState)
    (hor : ∀ n, (env.nodeReply n).isSome = true)
    (h : BuildInv st) : BuildInv (nodes.foldl (insertNode env srcMeta) st) := by
  induction nodes generalizing st with
  | nil => exact h
  | cons n ns ih => exact ih _ (insertNode_BuildInv env srcMeta n st hor h)

lemma foldl_insertRel_BuildInv (env : BuildEnv) (rels : List GRel)
    (st : BuildState)
    (h : BuildInv st) : BuildInv (rels.foldl (insertRel env) st) := by
  induction rels generalizing st with
  | nil => exact h
  | cons r rs ih => exact ih _ (insertRel_BuildInv env r st h)

lemma processDoc_BuildInv (env : BuildEnv) (gdoc : GraphDoc) (st : BuildState)
    (hor : ∀ n, (env.nodeReply n).isSome = true)
    (h : BuildInv st) : BuildInv (processDoc env st gdoc) := by
  unfold processDoc
  exact foldl_insertRel_BuildInv env _ _
    (foldl_insertNode_BuildInv env _ _ _ hor h)

lemma initState_BuildInv : BuildInv initState := by
  constructor
  · intro key
    simp [initState, countNodeOps, List.lookup]
  · intro op hop
    simp [initState] at hop

lemma build_graph_run_BuildInv (env : BuildEnv) (docs : List Document)
    (hor : ∀ n, (env.nodeReply n).isSome = true) :
    BuildInv (build_graph_run env docs) := by
  unfold build_graph_run
  generalize env.transform (docs.take 50) = gdocs
  induction gdocs using List.reverseRecOn with
  | nil => exact initState_BuildInv
  | append_singleton gs g ih =>
    rw [List.foldl_append]
    exact processDoc_BuildInv env g _ hor ih

/-- C7: within one `build_graph` invocation with a store that always
returns an id, the op log contains at most one node-creation call per
lower-cased entity name (a node is created only when the name is not yet
in the entity-id map, so repeat mentions — also across documents — do
not create a second node), and every relationship-creation call uses
exactly the ids the invocation's entity-id map assigned to its
lower-cased endpoint names. -/
theorem C7_entity_dedup_per_invocation (env : BuildEnv) (docs : List Document)
    (hor : ∀ n, (env.nodeReply n).isSome = true) :
    (∀ key, countNodeOps key (build_graph_run env docs).ops ≤ 1) ∧
    (∀ op ∈ (build_graph_run env docs).ops,
      relOpResolved (build_graph_run env docs).entity_id_map op) := by
  have hinv := build_graph_run_BuildInv env docs hor
  refine ⟨fun key => ?_, hinv.2⟩
  rw [hinv.1 key]
  split <;> omega

/-- Witness for C7: two documents both mentioning "Solar Panel X" (in
different case) yield at most one node-creation call for it, and the
relationships of both documents resolve through the one map. -/
theorem C7_entity_dedup_per_invocation_witness :
    countNodeOps "solar panel x" (GraphRAG.build_graph_run envC7 [⟨"doc"⟩]).ops ≤ 1 :=
  (C7_entity_dedup_per_invocation envC7 [⟨"doc"⟩] (fun _ => rfl)).1 "solar panel x"

lemma insertNode_RelCountInv (env : BuildEnv) (srcMeta : String) (node : GNode)
    (st : BuildState)
    (h : RelCountInv st) : RelCountInv (insertNode env srcMeta st node) := by
  obtain ⟨h1, h2⟩ := h
  unfold insertNode
  dsimp only
  by_cases hk : (st.entity_id_map.lookup (pyLower node.id)).isSome
  · rw [if_pos hk]
    exact ⟨h1, h2⟩
  · rw [if_neg hk]
    cases hrep : env.nodeReply st.nodeCalls with
    | some nid =>
      refine ⟨?_, h2⟩
      dsimp only
      rw [List.filter_append, List.length_append, h1]
      simp [isCreateRel]
    | none =>
      refine ⟨?_, h2⟩
      dsimp only
      rw [List.filter_append, List.length_append, h1]
      simp [isCreateRel]

lemma insertRel_RelCountInv (env : BuildEnv) (rel : GRel) (st : BuildState)
    (h : RelCountInv st) : RelCountInv (insertRel env st rel) := by
  obtain ⟨h1, h2⟩ := h
  unfold insertRel
  dsimp only
  cases hf : st.entity_id_map.lookup (pyLower rel.source) with
  | none => exact ⟨h1, h2⟩
  | some fid =>
    cases ht : st.entity_id_map.lookup (pyLower rel.target) with
    | none => exact ⟨h1, h2⟩
    | some tid =>
      refine ⟨?_, ?_⟩
      · dsimp only
        rw [List.filter_append, List.length_append, h1]
        simp [isCreateRel]
      · dsimp only
        omega

lemma foldl_insertNode_RelCountInv (env : BuildEnv) (srcMeta : String)
    (nodes : List GNode) (st : BuildState)
    (h : RelCountInv st) :
    RelCountInv (nodes.foldl (insertNode env srcMeta) st) := by
  induction nodes generalizing st with
  | nil => exact h
  | cons n ns ih => exact ih _ (insertNode_RelCountInv env srcMeta n st h)

lemma foldl_insertRel_RelCountInv (env : BuildEnv) (rels : List GRel)
    (st : BuildState)
    (h : RelCountInv st) : RelCountInv (rels.foldl (insertRel env) st) := by
  induction rels generalizing st with
  | nil => exact h
  | cons r rs ih => exact ih _ (insertRel_RelCountInv env r st h)

lemma processDoc_RelCountInv (env : BuildEnv) (gdoc : GraphDoc) (st : BuildState)
    (h : RelCountInv st) : RelCountInv (processDoc env st gdoc) := by
  unfold processDoc
  exact foldl_insertRel_RelCountInv env _ _
    (foldl_insertNode_RelCountInv env _ _ _ h)

lemma build_graph_run_RelCountInv (env : BuildEnv) (docs : List Document) :
    RelCountInv (build_graph_run env docs) := by
  unfold build_graph_run
  generalize env.transform (docs.take 50) = gdocs
  have hinit : RelCountInv initState := by
    constructor <;> simp [initState]
  induction gdocs using List.reverseRecOn with
  | nil => exact hinit
  | append_singleton gs g ih =>
    rw [List.foldl_append]
    exact processDoc_RelCountInv env g _ ih

/-- C10: the relation count `build_graph` returns equals the number of
`create_relationship` calls it issued — one per relationship whose two
endpoint names resolved in the entity-id map — independently of the
store's replies to those calls; and the number of calls that got a
non-empty reply (relationships observably created in the store) never
exceeds it. -/
theorem C10_relation_count_ignores_store_reply (env : BuildEnv)
    (docs : List Document) :
    ((build_graph_run env docs).total_relations =
      ((build_graph_run env docs).ops.filter isCreateRel).length) ∧
    (storeCreatedRels env (build_graph_run env docs) ≤
      (build_graph_run env docs).total_relations) ∧
    (∀ r2 : Nat → List QueryRow,
      build_graph_run { env with relReply := r2 } docs =
        build_graph_run env docs) := by
  have hinv := build_graph_run_RelCountInv env docs
  refine ⟨hinv.1, ?_, fun r2 => rfl⟩
  calc storeCreatedRels env (build_graph_run env docs)
      ≤ (List.range (build_graph_run env docs).relCalls).length :=
        List.length_filter_le _ _
    _ = (build_graph_run env docs).relCalls := List.length_range _
    _ = (build_graph_run env docs).total_relations := hinv.2

end BuilderInvariantTheorems
